import Mathlib

/-!
triangleqrpromo: a verification development of `main.go`.

The program is one Go file: `initDatabase` applies two SQL scripts to an
SQLite database, `HomeHandler` inserts a registration row and renders a
template, `main` wires everything and `start` runs the server until SIGINT.

The SQL scripts are kept as the literal text of the source and read by a
small tokenizer and statement reader; the database is a list of tables whose
rows are lists of stored values.  Stored values follow SQLite's column
affinity rules (https://www.sqlite.org/datatype3.html, section 3).
-/

namespace TriangleQRPromo

/-! ## SQL text -/

/-- White space between SQL tokens. -/
def isSpace (c : Char) : Bool :=
  c = ' ' || c = '\t' || c = '\n' || c = '\r'

/-- Characters that are a token of their own. -/
def isPunct (c : Char) : Bool :=
  c = '(' || c = ')' || c = ',' || c = ';' || c = '=' || c = '?'

/-- ASCII lower case: SQL keywords, identifiers and type names are case-insensitive. -/
def lower (c : Char) : Char :=
  if 'A' ≤ c ∧ c ≤ 'Z' then Char.ofNat (c.toNat + 32) else c

/-- Close the word being read, if any. The word is held reversed. -/
def flush (cur : List Char) (acc : List String) : List String :=
  if cur.isEmpty then acc else String.mk cur.reverse :: acc

/-- Tokenizer loop: `cur` is the current word (reversed), `acc` the tokens so far (reversed). -/
def tokensAux : List Char → List Char → List String → List String
  | [], cur, acc => (flush cur acc).reverse
  | c :: cs, cur, acc =>
    if isSpace c then tokensAux cs [] (flush cur acc)
    else if isPunct c then tokensAux cs [] (String.singleton c :: flush cur acc)
    else tokensAux cs (lower c :: cur) acc

/-- The lower-cased tokens of an SQL text. -/
def tokens (sql : String) : List String :=
  tokensAux sql.data [] []

/-- One column of a `create table` statement, as declared. -/
structure ColumnDef where
  name : String
  declType : String
  primaryKey : Bool
  notNull : Bool
  deriving DecidableEq, Repr

/-- The statements the program issues. -/
inductive Stmt where
  | pragmaForeignKeys (enabled : Bool)
  | createTableIfNotExists (table : String) (cols : List ColumnDef) (withoutRowid : Bool)
  | insert (table : String) (cols : List String) (params : Nat)
  deriving DecidableEq, Repr

/-- Column constraints up to the `,` or `)` that ends the column. -/
def readConstraints : List String → ColumnDef → Option (ColumnDef × List String)
  | [], _ => none
  | t :: rest, c =>
    if t = "," ∨ t = ")" then some (c, t :: rest)
    else match rest with
      | [] => none
      | u :: rest2 =>
        if t = "primary" ∧ u = "key" then readConstraints rest2 { c with primaryKey := true }
        else if t = "not" ∧ u = "null" then readConstraints rest2 { c with notNull := true }
        else none

/-- Column definitions `name type constraints, ...` up to and including the closing `)`.
`fuel` bounds the number of columns. -/
def readColumns : Nat → List String → Option (List ColumnDef × List String)
  | 0, _ => none
  | fuel + 1, name :: ty :: rest =>
    match readConstraints rest ⟨name, ty, false, false⟩ with
    | some (c, "," :: rest2) =>
      match readColumns fuel rest2 with
      | some (cs, rest3) => some (c :: cs, rest3)
      | none => none
    | some (c, ")" :: rest2) => some ([c], rest2)
    | _ => none
  | _ + 1, _ => none

/-- A comma-separated list of names up to and including the closing `)`. -/
def readNames : List String → Option (List String × List String)
  | n :: ")" :: rest => if n = "," ∨ n = "(" ∨ n = ")" then none else some ([n], rest)
  | n :: "," :: rest =>
    if n = "," ∨ n = "(" ∨ n = ")" then none
    else match readNames rest with
      | some (ns, rest2) => some (n :: ns, rest2)
      | none => none
  | _ => none

/-- The tail of a statement: nothing, or one `;`. -/
def atEnd (ts : List String) : Bool :=
  ts = [] || ts = [";"]

/-- Read one statement from its tokens. -/
def readStmt : List String → Option Stmt
  | ["pragma", "foreign_keys", "=", v] | ["pragma", "foreign_keys", "=", v, ";"] =>
    if v = "on" then some (.pragmaForeignKeys true)
    else if v = "off" then some (.pragmaForeignKeys false)
    else none
  | "create" :: "table" :: "if" :: "not" :: "exists" :: table :: "(" :: rest =>
    match readColumns rest.length rest with
    | some (cols, ["without", "rowid"]) | some (cols, ["without", "rowid", ";"]) =>
      some (.createTableIfNotExists table cols true)
    | some (cols, tail) => if atEnd tail then some (.createTableIfNotExists table cols false) else none
    | none => none
  | "insert" :: "into" :: table :: "(" :: rest =>
    match readNames rest with
    | some (cols, "values" :: "(" :: rest2) =>
      match readNames rest2 with
      | some (ps, tail) =>
        if ps.all (· = "?") ∧ atEnd tail then some (.insert table cols ps.length) else none
      | none => none
    | _ => none
  | _ => none

/-- Parse an SQL text into the statement it denotes. -/
def parseSQL (sql : String) : Option Stmt :=
  readStmt (tokens sql)

/-- The first script of `initDatabase`, as written in the source. -/
def pragmaScript : String :=
  "
			PRAGMA foreign_keys = ON;
		"

/-- The second script of `initDatabase`, as written in the source. -/
def createScript : String :=
  "
			create table if not exists registration (
				id text primary key,
				name string not null,
				phone string not null,
                created_on integer not null
			) without rowid;
		"

/-- The Go slice `scripts` of `initDatabase`. -/
def scripts : List String :=
  [pragmaScript, createScript]

/-- The statement text `HomeHandler` prepares. -/
def insertSQL : String :=
  "insert into registration (id, name, phone, created_on) values(?,?,?,?)"

/-! ## Stored values and column affinity -/

/-- A parameter bound to a prepared statement: a Go `string` or an `int64`. -/
inductive Arg where
  | text (s : String)
  | int (i : Int)
  deriving DecidableEq, Repr

/-- A value as stored in a row. `number lit` is a value of a numeric storage class
(INTEGER or REAL) denoted by the decimal literal `lit`; which of the two classes it
takes and its floating-point rounding are not interpreted. -/
inductive SqlValue where
  | null
  | integer (i : Int)
  | number (lit : String)
  | text (s : String)
  deriving DecidableEq, Repr

/-- The five column affinities of SQLite. -/
inductive Affinity where
  | text
  | numeric
  | integer
  | real
  | blob
  deriving DecidableEq, Repr

/-- Whether `p` occurs in `s` as a contiguous run. -/
def containsRun (p : List Char) : List Char → Bool
  | [] => p.isEmpty
  | c :: cs => p.isPrefixOf (c :: cs) || containsRun p cs

/-- Column affinity from the declared type, rules 1 to 5 of SQLite in their order:
"INT" gives INTEGER; "CHAR", "CLOB" or "TEXT" give TEXT; "BLOB" or no type gives BLOB;
"REAL", "FLOA" or "DOUB" give REAL; anything else gives NUMERIC. -/
def affinityOf (declType : String) : Affinity :=
  let t := declType.data.map lower
  if containsRun "int".data t then .integer
  else if containsRun "char".data t || containsRun "clob".data t || containsRun "text".data t then .text
  else if containsRun "blob".data t || t.isEmpty then .blob
  else if containsRun "real".data t || containsRun "floa".data t || containsRun "doub".data t then .real
  else .numeric

/-- A decimal digit. -/
def isDigit (c : Char) : Bool :=
  decide ('0' ≤ c ∧ c ≤ '9')

/-- White space SQLite skips around a numeric literal (space, tab, LF, VT, FF, CR). -/
def isSqlSpace (c : Char) : Bool :=
  c = ' ' || (9 ≤ c.toNat && c.toNat ≤ 13)

/-- Drop leading and trailing white space. -/
def trimSpaces (cs : List Char) : List Char :=
  ((cs.dropWhile isSqlSpace).reverse.dropWhile isSqlSpace).reverse

/-- The number written by a run of decimal digits. -/
def digitsValue (ds : List Char) : Nat :=
  ds.foldl (fun n c => 10 * n + (c.toNat - 48)) 0

/-- A non-empty run of digits. -/
def allDigits (ds : List Char) : Bool :=
  !ds.isEmpty && ds.all isDigit

/-- The value of a well-formed integer literal: optional sign, then digits only. -/
def intLiteral (s : List Char) : Option Int :=
  match trimSpaces s with
  | '-' :: ds => if allDigits ds then some (-(digitsValue ds : Int)) else none
  | '+' :: ds => if allDigits ds then some (digitsValue ds : Int) else none
  | ds => if allDigits ds then some (digitsValue ds : Int) else none

/-- Drop one leading sign. -/
def dropSign : List Char → List Char
  | '-' :: r => r
  | '+' :: r => r
  | r => r

/-- A well-formed real literal: optional sign, digits with an optional fraction (one digit
at least in all), and an optional exponent `e`, sign, digits. -/
def isRealLiteral (s : List Char) : Bool :=
  let t := dropSign (trimSpaces s)
  let ip := t.takeWhile isDigit
  let r1 := t.dropWhile isDigit
  let fp := match r1 with
    | '.' :: r => r.takeWhile isDigit
    | _ => []
  let r2 := match r1 with
    | '.' :: r => r.dropWhile isDigit
    | r => r
  let okExp := match r2 with
    | [] => true
    | e :: r => (e = 'e' || e = 'E') && allDigits (dropSign r)
  (!ip.isEmpty || !fp.isEmpty) && okExp

/-- Text stored in a column of NUMERIC affinity: a well-formed integer literal that fits
64 bits becomes that INTEGER, another well-formed numeric literal becomes a number, and
any other text stays TEXT. -/
def numericOfText (s : String) : SqlValue :=
  match intLiteral s.data with
  | some i => if -(2 : Int) ^ 63 ≤ i ∧ i < (2 : Int) ^ 63 then .integer i else .number s
  | none => if isRealLiteral s.data then .number s else .text s

/-- The value a column of the given affinity stores for a bound parameter. -/
def applyAffinity : Affinity → Arg → SqlValue
  | .text, .text s => .text s
  | .text, .int i => .text (toString i)
  | .blob, .text s => .text s
  | .blob, .int i => .integer i
  | .real, .text s =>
    match numericOfText s with
    | .integer i => .number (toString i)
    | v => v
  | .real, .int i => .number (toString i)
  | .numeric, .text s => numericOfText s
  | .numeric, .int i => .integer i
  | .integer, .text s => numericOfText s
  | .integer, .int i => .integer i

/-! ## The database -/

/-- A table: its declaration and its rows, each row in the order of the columns. -/
structure Table where
  name : String
  cols : List ColumnDef
  withoutRowid : Bool
  rows : List (List SqlValue)
  deriving DecidableEq, Repr

/-- The state behind the `*sql.DB` handle: the connection's foreign-key switch and the
schema objects of `./database.db`, which are its tables, and the names of its views and of
its indexes. -/
structure Database where
  foreignKeys : Bool
  tables : List Table
  views : List String
  indexes : List String
  deriving DecidableEq, Repr

/-- A name in lower case: SQLite resolves the names of tables, views, indexes and columns
without regard to case. -/
def lowerName (s : String) : List Char :=
  s.data.map lower

/-- Whether two names denote the same object. -/
def sameName (a b : String) : Bool :=
  decide (lowerName a = lowerName b)

/-- The table of that name, if any. -/
def Database.find (db : Database) (name : String) : Option Table :=
  db.tables.find? (fun t => sameName t.name name)

/-- Whether a view has that name. -/
def Database.hasView (db : Database) (name : String) : Bool :=
  db.views.any fun v => sameName v name

/-- Whether an index has that name. -/
def Database.hasIndex (db : Database) (name : String) : Bool :=
  db.indexes.any fun i => sameName i name

/-- The row an insert builds: each table column takes the parameter bound to it, under the
column's affinity, or NULL when the insert does not name the column. -/
def buildRow (cols : List ColumnDef) (names : List String) (args : List Arg) : List SqlValue :=
  cols.map fun c =>
    match (names.zip args).find? (fun na => sameName na.1 c.name) with
    | some na => applyAffinity (affinityOf c.declType) na.2
    | none => .null

/-- The primary-key part of a row. -/
def pkOf (cols : List ColumnDef) (row : List SqlValue) : List SqlValue :=
  (cols.zip row).filterMap fun cv => if cv.1.primaryKey then some cv.2 else none

/-- The first column whose NOT NULL constraint the row breaks. A primary key of a
WITHOUT ROWID table is NOT NULL as well. -/
def nullViolation (t : Table) (row : List SqlValue) : Option String :=
  ((t.cols.zip row).find? fun cv =>
    (cv.1.notNull || (cv.1.primaryKey && t.withoutRowid)) && cv.2 = .null).map (·.1.name)

/-- Whether a stored row already holds the primary key of `row`. -/
def pkTaken (t : Table) (row : List SqlValue) : Bool :=
  t.cols.any (·.primaryKey) && t.rows.any fun r => pkOf t.cols r = pkOf t.cols row

/-- Replace the rows of the named table. -/
def Database.setRows (db : Database) (name : String) (rows : List (List SqlValue)) : Database :=
  { db with
    tables := db.tables.map fun t => if sameName t.name name then { t with rows := rows } else t }

/-- The text of a broken primary key: `table.column` for each key column. -/
def pkColumns (t : Table) : String :=
  ", ".intercalate ((t.cols.filter (·.primaryKey)).map fun c => t.name ++ "." ++ c.name)

/-- Why `create table if not exists` cannot go ahead, if it cannot: a table or a view of the
name makes the statement do nothing, and without one an index of the name is an error. -/
def createBlocked (db : Database) (table : String) : Option String :=
  if (db.find table).isSome || db.hasView table then none
  else if db.hasIndex table then some ("there is already an index named " ++ table)
  else none

/-- What executing a statement does to the database, or the error it raises. -/
def runStmt (db : Database) : Stmt → List Arg → Except String Database
  | .pragmaForeignKeys v, _ => .ok { db with foreignKeys := v }
  | .createTableIfNotExists table cols wr, _ =>
    if (db.find table).isSome || db.hasView table then .ok db
    else if db.hasIndex table then .error ("there is already an index named " ++ table)
    else .ok { db with tables := db.tables ++ [⟨table, cols, wr, []⟩] }
  | .insert table names _, args =>
    match db.find table with
    | none => .error ("no such table: " ++ table)
    | some t =>
      let row := buildRow t.cols names args
      match nullViolation t row with
      | some col => .error ("NOT NULL constraint failed: " ++ t.name ++ "." ++ col)
      | none =>
        if pkTaken t row then .error ("UNIQUE constraint failed: " ++ pkColumns t)
        else .ok (db.setRows table (t.rows ++ [row]))

/-- Number of `?` parameters of a statement. -/
def Stmt.params : Stmt → Nat
  | .insert _ _ n => n
  | _ => 0

/-- Model of `db.Prepare(sql)`: `fault` is a failure of the driver or the file (locked, I/O),
given by the environment; otherwise the text must parse, an insert must name an existing
table, not a view, and existing columns, and a table creation must not meet an index of the
name. -/
def Prepare (fault : Option String) (db : Database) (sql : String) : Except String Stmt :=
  match fault with
  | some e => .error e
  | none =>
    match parseSQL sql with
    | none => .error "syntax error"
    | some (.insert table names n) =>
      if db.hasView table then .error ("cannot modify " ++ table ++ " because it is a view")
      else
        match db.find table with
        | none => .error ("no such table: " ++ table)
        | some t =>
          match names.find? (fun c => !t.cols.any fun col => sameName col.name c) with
          | some c => .error ("table " ++ table ++ " has no column named " ++ c)
          | none => .ok (.insert table names n)
    | some (.createTableIfNotExists table cols wr) =>
      match createBlocked db table with
      | some e => .error e
      | none => .ok (.createTableIfNotExists table cols wr)
    | some st => .ok st

/-- Model of `stmt.Exec(args...)`: `fault` as for `Prepare`; the number of arguments must be
the number of parameters. -/
def Exec (fault : Option String) (db : Database) (stmt : Stmt) (args : List Arg) :
    Except String Database :=
  match fault with
  | some e => .error e
  | none =>
    if args.length ≠ stmt.params then .error "sql: wrong number of arguments"
    else runStmt db stmt args

/-! ## `initDatabase` -/

/-- Failures the driver can report for reasons outside the program (the file cannot be
opened, is locked, the disk fails): `sql.Open`, and `Prepare` and `Exec` of script `i`. -/
structure DriverFaults where
  openErr : Option String
  prepareErr : Nat → Option String
  execErr : Nat → Option String

/-- The environment in which the driver never fails on its own. -/
def noFaults : DriverFaults :=
  ⟨none, fun _ => none, fun _ => none⟩

/-- Outcome of `initDatabase`: the database, the scripts executed so far in their order, and
the panic that stopped it, if any. -/
structure InitResult where
  db : Database
  executed : List String
  panic : Option String
  deriving DecidableEq, Repr

/-- The `for _, oneScript := range scripts` loop, from script number `i` on. -/
def initLoop (env : DriverFaults) : Nat → List String → Database → List String → InitResult
  | _, [], db, done => ⟨db, done, none⟩
  | i, oneScript :: rest, db, done =>
    match Prepare (env.prepareErr i) db oneScript with
    | .error err => ⟨db, done, some err⟩
    | .ok stmt =>
      match Exec (env.execErr i) db stmt [] with
      | .error err => ⟨db, done, some err⟩
      | .ok db1 => initLoop env (i + 1) rest db1 (done ++ [oneScript])

/-- Model of `initDatabase`, run against the state `file` of `./database.db`. -/
def initDatabase (env : DriverFaults) (file : Database) : InitResult :=
  match env.openErr with
  | some err => ⟨file, [], some err⟩
  | none => initLoop env 0 scripts file []

/-! ## Templates, requests and responses -/

/-- The Go type `homeData`: a struct with no field. -/
structure homeData where
  deriving DecidableEq, Repr

/-- A compiled template. `Execute` gives the text written to the writer and the error
returned (after an error the text is the part written before it). -/
structure Template where
  name : String
  Execute : homeData → String × Option String

/-- The Go constant `errorPattern`. -/
def errorPattern : String := "error: %s"

/-- Put the argument in place of the first `%s` of the pattern. -/
def formatS : List Char → String → List Char
  | [], _ => []
  | '%' :: 's' :: rest, a => a.data ++ rest
  | c :: rest, a => c :: formatS rest a

/-- The text `fmt.Printf(pattern, arg)` writes to standard output. -/
def Printf (pattern arg : String) : String :=
  String.mk (formatS pattern.data arg)

/-- The response under construction: the body written so far and the status code set by
an explicit `WriteHeader`, if any. -/
structure ResponseWriter where
  body : String
  status : Option Nat
  deriving DecidableEq, Repr

/-- Model of `w.Write`. -/
def ResponseWriter.Write (w : ResponseWriter) (out : String) : ResponseWriter :=
  { w with body := w.body ++ out }

/-- A request: the result of `r.ParseForm()` and the form values it leaves in `r.Form`. -/
structure Request where
  parseErr : Option String
  Form : List (String × List String)
  deriving DecidableEq, Repr

/-- Model of `r.FormValue(key)`: the first value of the key, or the empty string. -/
def Request.FormValue (r : Request) (key : String) : String :=
  match r.Form.lookup key with
  | some (v :: _) => v
  | _ => ""

/-- What a route serves. -/
inductive Handler where
  | home
  | fileServer (dir : String)
  deriving DecidableEq, Repr

/-- A route of the router: `subtree` is false for `HandleFunc(path, ...)` and true for
`PathPrefix(path).Handler(...)`. -/
structure Route where
  path : String
  subtree : Bool
  handler : Handler
  deriving DecidableEq, Repr

/-- The Go struct `application`; `db` is the state behind the `*sql.DB` handle and `wait` is in
nanoseconds. -/
structure application where
  router : List Route
  db : Database
  wait : Nat
  templates : List (String × Template)

/-! ## `HomeHandler` -/

/-- What one call of `HomeHandler` takes from outside: the driver's own failures at `Prepare`
and `Exec`, the text of `uuid.NewV4()`, and `time.Now().UTC().Unix()`. -/
structure HandlerEnv where
  prepareErr : Option String
  execErr : Option String
  newV4 : String
  now : Int
  deriving DecidableEq, Repr

/-- The calls `HomeHandler` makes to the store and to the templates, with their results. -/
inductive Event where
  | prepare (sql : String) (err : Option String)
  | exec (args : List Arg) (err : Option String)
  | execute (template : String) (err : Option String)
  deriving DecidableEq, Repr

/-- Outcome of one call: the database, the response, what was printed on standard output, the
calls made, and the panic if the handler did not return. -/
structure HandlerResult where
  db : Database
  w : ResponseWriter
  stdout : List String
  events : List Event
  panic : Option String
  deriving DecidableEq, Repr

/-- The tail shared by both branches: `err = app.templates[name].Execute(w, homeData{})`,
printing the error if there is one. A name missing from the map gives a nil template, whose
`Execute` panics. -/
def render (app : application) (name : String) (db : Database) (w : ResponseWriter)
    (events : List Event) : HandlerResult :=
  match app.templates.lookup name with
  | none => ⟨db, w, [], events, some "invalid memory address or nil pointer dereference"⟩
  | some t =>
    match t.Execute {} with
    | (out, some err) =>
      ⟨db, w.Write out, [Printf errorPattern err], events ++ [.execute name (some err)], none⟩
    | (out, none) => ⟨db, w.Write out, [], events ++ [.execute name none], none⟩

/-- Model of `HomeHandler`. -/
def HomeHandler (app : application) (env : HandlerEnv) (w : ResponseWriter) (r : Request) :
    HandlerResult :=
  match r.parseErr with
  | some err => ⟨app.db, w, [], [], some err⟩
  | none =>
    let name := r.FormValue "name"
    let phone := r.FormValue "phone"
    if name ≠ "" ∧ phone ≠ "" then
      match Prepare env.prepareErr app.db insertSQL with
      | .error err =>
        ⟨app.db, w, [Printf errorPattern err], [.prepare insertSQL (some err)], none⟩
      | .ok stmt =>
        let id := env.newV4
        let createdOn := env.now
        let args := [Arg.text id, Arg.text name, Arg.text phone, Arg.int createdOn]
        match Exec env.execErr app.db stmt args with
        | .error err =>
          ⟨app.db, w, [Printf errorPattern err],
            [.prepare insertSQL none, .exec args (some err)], none⟩
        | .ok db1 =>
          render app "registration" db1 w [.prepare insertSQL none, .exec args none]
    else
      render app "home" app.db w []

/-! ## `start` -/

/-- Where the serving goroutine's log line falls once `Shutdown` has made `ListenAndServe`
return: before the main goroutine's own line, after it, or never (the process exited first). -/
inductive Race where
  | first
  | second
  | lost
  deriving DecidableEq, Repr

/-- What `start` takes from outside: the error with which `ListenAndServe` returns before any
signal (none: it serves until shut down), whether SIGINT arrives, what `srv.Shutdown(ctx)`
returns (nil, or an error when the timeout elapsed), and the schedule of the two goroutines. -/
structure StartEnv where
  listenErr : Option String
  interrupt : Bool
  shutdownErr : Option String
  race : Race
  deriving DecidableEq, Repr

/-- Outcome of `start`: standard output, the log, the timeout given to the shutdown call when
it was made, and the exit status (none: the process is still blocked on the channel). -/
structure StartResult where
  stdout : List String
  log : List String
  shutdown : Option Nat
  exit : Option Nat
  deriving DecidableEq, Repr

/-- Model of `start`. The result of `srv.Shutdown(ctx)` is dropped by the source. -/
def start (app : application) (env : StartEnv) : StartResult :=
  let early := match env.listenErr with
    | some err => [err]
    | none => []
  if env.interrupt then
    let closed := match env.listenErr with
      | some _ => []
      | none => ["http: Server closed"]
    let log := match env.race with
      | .first => early ++ closed ++ ["shutting down"]
      | .second => early ++ ["shutting down"] ++ closed
      | .lost => early ++ ["shutting down"]
    ⟨["starting...\n"], log, some app.wait, some 0⟩
  else
    ⟨["starting...\n"], early, none, none⟩

/-! ## `main` -/

/-- Model of `createTemplate`: `readFile` is `ioutil.ReadFile` and `parse name text` is
`template.New(name).Parse(text)`. -/
def createTemplate (readFile : String → Except String String)
    (parse : String → String → Except String Template) (name path : String) :
    Except String Template :=
  match readFile path with
  | .error err => .error err
  | .ok data => parse name data

/-- The calls `main` makes, in the order it makes them. -/
inductive Step where
  | createTemplate (name path : String)
  | flagParse
  | newRouter
  | initDatabase
  | handleFunc (path : String)
  | pathPrefixHandler (path dir : String)
  | start
  deriving DecidableEq, Repr

/-- What `main` takes from outside: the file system, the template compiler, the result of
`flag.Parse()` (the exit status on a bad command line, else the timeout), the database file,
and the environments of `initDatabase` and `start`. -/
structure MainEnv where
  readFile : String → Except String String
  parse : String → String → Except String Template
  flags : Except Nat Nat
  file : Database
  faults : DriverFaults
  startEnv : StartEnv

/-- Outcome of `main`: the calls made, the database, and how the process ended (a panic, an
exit status, or neither while it is still serving). -/
structure MainResult where
  trace : List Step
  db : Database
  panic : Option String
  exit : Option Nat
  deriving DecidableEq, Repr

/-- Model of `main`. -/
def main (env : MainEnv) : MainResult :=
  let t1 := [Step.createTemplate "home" "templates/index.html"]
  match createTemplate env.readFile env.parse "home" "templates/index.html" with
  | .error err => ⟨t1, env.file, some err, none⟩
  | .ok homeTmpl =>
    let t2 := t1 ++ [Step.createTemplate "registration" "templates/registration.html"]
    match createTemplate env.readFile env.parse "registration" "templates/registration.html" with
    | .error err => ⟨t2, env.file, some err, none⟩
    | .ok registrationTmpl =>
      let t3 := t2 ++ [Step.flagParse]
      match env.flags with
      | .error status => ⟨t3, env.file, none, some status⟩
      | .ok wait =>
        let t4 := t3 ++ [Step.newRouter, Step.initDatabase]
        let init := initDatabase env.faults env.file
        match init.panic with
        | some err => ⟨t4, init.db, some err, none⟩
        | none =>
          let app : application :=
            { router := [⟨"/", false, .home⟩, ⟨"/", true, .fileServer "./static/"⟩]
              db := init.db
              wait := wait
              templates := [("home", homeTmpl), ("registration", registrationTmpl)] }
          let t5 := t4 ++ [Step.handleFunc "/", Step.pathPrefixHandler "/" "./static/", Step.start]
          ⟨t5, init.db, none, (start app env.startEnv).exit⟩

/-! ## Derived notions used by the statements -/

/-- The columns the table-creation script declares, in their order. -/
def registrationCols : List ColumnDef :=
  [⟨"id", "text", true, false⟩, ⟨"name", "string", false, true⟩,
   ⟨"phone", "string", false, true⟩, ⟨"created_on", "integer", false, true⟩]

/-- The column names of the insert statement, in their order. -/
def insertCols : List String :=
  ["id", "name", "phone", "created_on"]

/-- A database file in which nothing has been created yet. -/
def emptyFile : Database :=
  ⟨false, [], [], []⟩

/-- The rows of the `registration` table (none when the table does not exist). -/
def Database.registrations (db : Database) : List (List SqlValue) :=
  match db.find "registration" with
  | some t => t.rows
  | none => []

/-- The arguments `HomeHandler` binds to the insert statement. -/
def insertArgs (env : HandlerEnv) (r : Request) : List Arg :=
  [Arg.text env.newV4, Arg.text (r.FormValue "name"), Arg.text (r.FormValue "phone"),
   Arg.int env.now]

/-- Whether the store accepted an insert during the call. -/
def insertAccepted (events : List Event) : Bool :=
  events.any fun e =>
    match e with
    | .exec _ none => true
    | _ => false

/-- Whether the call reached the store at all (`Prepare` or `Exec`). -/
def insertAttempted (events : List Event) : Bool :=
  events.any fun e =>
    match e with
    | .prepare _ _ => true
    | .exec _ _ => true
    | _ => false

/-- The error of the `Prepare` or `Exec` that failed during the call, if one did. -/
def insertFailure : List Event → Option String
  | [] => none
  | .prepare _ (some err) :: _ => some err
  | .exec _ (some err) :: _ => some err
  | _ :: rest => insertFailure rest

/-- Whether a template was executed during the call. -/
def templateExecuted (events : List Event) : Bool :=
  events.any fun e =>
    match e with
    | .execute _ _ => true
    | _ => false

/-- The value a row holds in the named column (NULL when the table has no such column). -/
def Table.field (t : Table) (row : List SqlValue) (col : String) : SqlValue :=
  match (t.cols.zip row).find? (fun cv => sameName cv.1.name col) with
  | some cv => cv.2
  | none => .null

/-- A stored value that is missing or the empty text. -/
def SqlValue.isEmpty (v : SqlValue) : Bool :=
  v = .null || v = .text ""

/-- Every row of every `registration` table holds a non-empty name and a non-empty phone. -/
def persistedNonEmpty (db : Database) : Bool :=
  db.tables.all fun t =>
    !sameName t.name "registration" ||
      t.rows.all fun row => !(t.field row "name").isEmpty && !(t.field row "phone").isEmpty

/-- The store states reachable by `HomeHandler` calls from the empty `registration` table that
`initDatabase` creates in a database file without one. The application around the store, the
requests, the generated ids, the clock readings and the driver failures are arbitrary. -/
inductive Reachable : Database → Prop where
  | init (file : Database) (h : file.find "registration" = none) :
      Reachable (initDatabase noFaults file).db
  | step (app : application) (env : HandlerEnv) (w : ResponseWriter) (r : Request)
      (h : Reachable app.db) : Reachable (HomeHandler app env w r).db

/-- The table `initDatabase` creates, with the given rows. -/
def registrationTable (rows : List (List SqlValue)) : Table :=
  ⟨"registration", registrationCols, true, rows⟩

/-- A template that writes a fixed text and does not fail. -/
def staticTemplate (name text : String) : Template :=
  ⟨name, fun _ => (text, none)⟩

/-- An application as `main` builds it, on a database file that was empty, with two fixed
templates. -/
def demoApp : application :=
  { router := [⟨"/", false, .home⟩, ⟨"/", true, .fileServer "./static/"⟩]
    db := (initDatabase noFaults emptyFile).db
    wait := 15000000000
    templates := [("home", staticTemplate "home" "<form>"),
                  ("registration", staticTemplate "registration" "<p>registered</p>")] }

/-- A request whose form parses to the given name and phone. -/
def formRequest (name phone : String) : Request :=
  ⟨none, [("name", [name]), ("phone", [phone])]⟩

/-- A call environment without driver failures. -/
def quietEnv (id : String) (now : Int) : HandlerEnv :=
  ⟨none, none, id, now⟩

/-- A fresh response writer. -/
def newWriter : ResponseWriter :=
  ⟨"", none⟩

/-- A startup environment in which every step succeeds and SIGINT arrives. -/
def demoMainEnv : MainEnv :=
  { readFile := fun _ => .ok "<html></html>"
    parse := fun name text => .ok (staticTemplate name text)
    flags := .ok 15000000000
    file := emptyFile
    faults := noFaults
    startEnv := ⟨none, true, none, .lost⟩ }

/-- The invariant kept by `HomeHandler`: a `registration` table has the declared columns and each of its
rows is `[id, name, phone, created_on]` with name and phone non-empty. -/
def Inv (db : Database) : Prop :=
  ∀ t ∈ db.tables, sameName t.name "registration" = true →
    t.cols = registrationCols ∧
    ∀ row ∈ t.rows, ∃ a b c d, row = [a, b, c, d] ∧ b.isEmpty = false ∧ c.isEmpty = false

/-! ## Facts about the SQL texts -/

theorem parseSQL_insertSQL : parseSQL insertSQL = some (.insert "registration" insertCols 4) := by
  decide


/-! ## `initDatabase` without driver failures -/

theorem parseSQL_pragmaScript : parseSQL pragmaScript = some (.pragmaForeignKeys true) := by
  decide

set_option maxRecDepth 100000 in
theorem parseSQL_createScript :
    parseSQL createScript = some (.createTableIfNotExists "registration" registrationCols true) := by
  decide

theorem initDatabase_noFaults (file : Database) :
    initDatabase noFaults file =
      if (file.find "registration").isSome || file.hasView "registration" then
        ⟨{ file with foreignKeys := true }, scripts, none⟩
      else if file.hasIndex "registration" then
        ⟨{ file with foreignKeys := true }, [pragmaScript],
          some "there is already an index named registration"⟩
      else
        ⟨{ file with
            foreignKeys := true
            tables := file.tables ++ [registrationTable []] }, scripts, none⟩ := by
  have h1 : Database.find { file with foreignKeys := true } "registration" =
      file.find "registration" := rfl
  have h2 : Database.hasView { file with foreignKeys := true } "registration" =
      file.hasView "registration" := rfl
  have h3 : Database.hasIndex { file with foreignKeys := true } "registration" =
      file.hasIndex "registration" := rfl
  by_cases hc1 : ((file.find "registration").isSome || file.hasView "registration") = true
  · simp [initDatabase, noFaults, scripts, initLoop, Prepare, parseSQL_pragmaScript,
      parseSQL_createScript, Exec, Stmt.params, runStmt, createBlocked, h1, h2, h3, hc1]
  · by_cases hc2 : file.hasIndex "registration" = true
    · simp [initDatabase, noFaults, scripts, initLoop, Prepare, parseSQL_pragmaScript,
        parseSQL_createScript, Exec, Stmt.params, runStmt, createBlocked, h1, h2, h3, hc1, hc2]
    · simp [initDatabase, noFaults, scripts, initLoop, Prepare, parseSQL_pragmaScript,
        parseSQL_createScript, Exec, Stmt.params, runStmt, createBlocked, h1, h2, h3, hc1, hc2,
        registrationTable]

/-! ## The store calls of `HomeHandler` -/

theorem Prepare_insertSQL_ok {fault : Option String} {db : Database} {stmt : Stmt}
    (h : Prepare fault db insertSQL = .ok stmt) :
    stmt = .insert "registration" insertCols 4 := by
  unfold Prepare at h
  rw [parseSQL_insertSQL] at h
  cases fault with
  | some e => simp at h
  | none =>
    simp only at h
    split at h
    · simp at h
    · split at h
      · simp at h
      · split at h
        · simp at h
        · simpa using h.symm

theorem Exec_insert_ok {fault : Option String} {db db1 : Database} {table : String}
    {names : List String} {n : Nat} {args : List Arg}
    (h : Exec fault db (.insert table names n) args = .ok db1) :
    ∃ t, db.find table = some t ∧ pkTaken t (buildRow t.cols names args) = false ∧
      db1 = db.setRows table (t.rows ++ [buildRow t.cols names args]) := by
  unfold Exec at h
  cases fault with
  | some e => simp at h
  | none =>
    simp only at h
    split at h
    · simp at h
    · simp only [runStmt] at h
      split at h
      · simp at h
      · rename_i t ht
        split at h
        · simp at h
        · split at h
          · simp at h
          · rename_i hpk
            refine ⟨t, ht, by simpa using hpk, ?_⟩
            simpa using h.symm

theorem buildRow_registration (id name phone : String) (createdOn : Int) :
    buildRow registrationCols insertCols
        [Arg.text id, Arg.text name, Arg.text phone, Arg.int createdOn] =
      [.text id, numericOfText name, numericOfText phone, .integer createdOn] := by
  rfl


/-! ## The shape of a `HomeHandler` call -/

theorem render_db (app : application) (name : String) (db : Database) (w : ResponseWriter)
    (events : List Event) : (render app name db w events).db = db := by
  unfold render
  split
  · rfl
  · split <;> rfl

theorem render_w_of_lookup {app : application} {name : String} {t : Template}
    (h : app.templates.lookup name = some t) (db : Database) (w : ResponseWriter)
    (events : List Event) : (render app name db w events).w = w.Write (t.Execute {}).1 := by
  unfold render
  rw [h]
  simp only
  split <;> rename_i heq <;> simp [heq]

theorem render_w_congr (app : application) (name : String) (db1 db2 : Database)
    (w : ResponseWriter) (ev1 ev2 : List Event) :
    (render app name db1 w ev1).w = (render app name db2 w ev2).w := by
  unfold render
  split
  · rfl
  · split <;> rfl

theorem render_events (app : application) (name : String) (db : Database) (w : ResponseWriter)
    (events : List Event) :
    (render app name db w events).events = events ∨
      ∃ err, (render app name db w events).events = events ++ [.execute name err] := by
  unfold render
  split
  · exact Or.inl rfl
  · split
    · exact Or.inr ⟨_, rfl⟩
    · exact Or.inr ⟨_, rfl⟩

theorem HomeHandler_cases (app : application) (env : HandlerEnv) (w : ResponseWriter)
    (r : Request) :
    (∃ err, r.parseErr = some err ∧ HomeHandler app env w r = ⟨app.db, w, [], [], some err⟩) ∨
    (r.parseErr = none ∧ ¬(r.FormValue "name" ≠ "" ∧ r.FormValue "phone" ≠ "") ∧
      HomeHandler app env w r = render app "home" app.db w []) ∨
    (r.parseErr = none ∧ (r.FormValue "name" ≠ "" ∧ r.FormValue "phone" ≠ "") ∧
      ∃ err, HomeHandler app env w r =
        ⟨app.db, w, [Printf errorPattern err], [.prepare insertSQL (some err)], none⟩) ∨
    (r.parseErr = none ∧ (r.FormValue "name" ≠ "" ∧ r.FormValue "phone" ≠ "") ∧
      ∃ err, HomeHandler app env w r =
        ⟨app.db, w, [Printf errorPattern err],
          [.prepare insertSQL none, .exec (insertArgs env r) (some err)], none⟩) ∨
    (r.parseErr = none ∧ (r.FormValue "name" ≠ "" ∧ r.FormValue "phone" ≠ "") ∧
      ∃ db1, Exec env.execErr app.db (.insert "registration" insertCols 4) (insertArgs env r)
          = .ok db1 ∧
        HomeHandler app env w r =
          render app "registration" db1 w
            [.prepare insertSQL none, .exec (insertArgs env r) none]) := by
  unfold HomeHandler
  cases hp : r.parseErr with
  | some err => exact Or.inl ⟨err, rfl, rfl⟩
  | none =>
    right
    simp only
    by_cases hv : r.FormValue "name" ≠ "" ∧ r.FormValue "phone" ≠ ""
    · right
      rw [if_pos hv]
      cases hprep : Prepare env.prepareErr app.db insertSQL with
      | error err => exact Or.inl ⟨trivial, hv, err, rfl⟩
      | ok stmt =>
        right
        have hs := Prepare_insertSQL_ok hprep
        subst hs
        simp only
        cases hexec : Exec env.execErr app.db (.insert "registration" insertCols 4)
            [Arg.text env.newV4, Arg.text (r.FormValue "name"), Arg.text (r.FormValue "phone"),
              Arg.int env.now] with
        | error err => exact Or.inl ⟨trivial, hv, err, rfl⟩
        | ok db1 => exact Or.inr ⟨trivial, hv, db1, hexec, rfl⟩
    · rw [if_neg hv]
      exact Or.inl ⟨trivial, hv, rfl⟩


theorem Printf_errorPattern (err : String) : Printf errorPattern err = "error: " ++ err := by
  apply String.ext
  rw [String.data_append]
  show 'e' :: 'r' :: 'r' :: 'o' :: 'r' :: ':' :: ' ' :: (err.data ++ []) = _
  simp

theorem insertAccepted_render_home (app : application) (db : Database) (w : ResponseWriter) :
    insertAccepted (render app "home" db w []).events = false := by
  rcases render_events app "home" db w [] with h | ⟨err, h⟩ <;> rw [h] <;> simp [insertAccepted]

theorem insertAttempted_render_home (app : application) (db : Database) (w : ResponseWriter) :
    insertAttempted (render app "home" db w []).events = false := by
  rcases render_events app "home" db w [] with h | ⟨err, h⟩ <;> rw [h] <;> simp [insertAttempted]

theorem insertAccepted_render_registration (app : application) (db : Database)
    (w : ResponseWriter) (args : List Arg) :
    insertAccepted
      (render app "registration" db w [.prepare insertSQL none, .exec args none]).events
      = true := by
  rcases render_events app "registration" db w [.prepare insertSQL none, .exec args none]
    with h | ⟨err, h⟩ <;> rw [h] <;> simp [insertAccepted]

theorem insertFailure_render_registration (app : application) (db : Database)
    (w : ResponseWriter) (args : List Arg) :
    insertFailure
      (render app "registration" db w [.prepare insertSQL none, .exec args none]).events
      = none := by
  rcases render_events app "registration" db w [.prepare insertSQL none, .exec args none]
    with h | ⟨err, h⟩ <;> rw [h] <;> simp [insertFailure]

theorem insertFailure_render_home (app : application) (db : Database) (w : ResponseWriter) :
    insertFailure (render app "home" db w []).events = none := by
  rcases render_events app "home" db w [] with h | ⟨err, h⟩ <;> rw [h] <;> simp [insertFailure]

/-- The response of a call is decided by three bits: whether the form parsed, whether both
fields were non-empty, and whether the store accepted the insert. -/
theorem HomeHandler_w (app : application) (env : HandlerEnv) (w : ResponseWriter) (r : Request) :
    (HomeHandler app env w r).w =
      if r.parseErr.isSome then w
      else if ¬(r.FormValue "name" ≠ "" ∧ r.FormValue "phone" ≠ "") then
        (render app "home" app.db w []).w
      else if insertAccepted (HomeHandler app env w r).events then
        (render app "registration" app.db w []).w
      else w := by
  rcases HomeHandler_cases app env w r with ⟨err, hp, h⟩ | ⟨hp, hv, h⟩ | ⟨hp, hv, err, h⟩ |
    ⟨hp, hv, err, h⟩ | ⟨hp, hv, db1, -, h⟩
  · simp [h, hp]
  · rw [h, hp, if_neg (by simp), if_pos hv]
  · rw [h, hp, if_neg (by simp), if_neg (not_not.mpr hv)]
    simp [insertAccepted]
  · rw [h, hp, if_neg (by simp), if_neg (not_not.mpr hv)]
    simp [insertAccepted]
  · rw [h, hp, if_neg (by simp), if_neg (not_not.mpr hv), insertAccepted_render_registration,
      if_pos rfl]
    exact render_w_congr _ _ _ _ _ _ _

/-- The database after a call: unchanged unless the store accepted the insert, and then the
result of that `Exec`. -/
theorem HomeHandler_db (app : application) (env : HandlerEnv) (w : ResponseWriter) (r : Request) :
    (insertAccepted (HomeHandler app env w r).events = false ∧
      (HomeHandler app env w r).db = app.db) ∨
    (insertAccepted (HomeHandler app env w r).events = true ∧
      r.parseErr = none ∧ r.FormValue "name" ≠ "" ∧ r.FormValue "phone" ≠ "" ∧
      Exec env.execErr app.db (.insert "registration" insertCols 4) (insertArgs env r) =
        .ok (HomeHandler app env w r).db) := by
  rcases HomeHandler_cases app env w r with ⟨err, hp, h⟩ | ⟨hp, hv, h⟩ | ⟨hp, hv, err, h⟩ |
    ⟨hp, hv, err, h⟩ | ⟨hp, hv, db1, hexec, h⟩
  · left; rw [h]; simp [insertAccepted]
  · left; rw [h, render_db]; exact ⟨insertAccepted_render_home _ _ _, rfl⟩
  · left; rw [h]; simp [insertAccepted]
  · left; rw [h]; simp [insertAccepted]
  · right; rw [h, render_db]
    exact ⟨insertAccepted_render_registration _ _ _ _, hp, hv.1, hv.2, hexec⟩


/-! ## Claims about `HomeHandler` -/

/-- C2: for every store state and every request, with the `home` template installed: if the
form parses and name or phone is empty, the call leaves the store unchanged, reaches the store
not at all, and the response body is the prior body followed by the rendered `home`
template; and in every call, the store is reached only when both fields are non-empty. -/
theorem C2_no_insert_on_missing_field (app : application) (homeTmpl : Template)
    (env : HandlerEnv) (w : ResponseWriter) (r : Request)
    (hhome : app.templates.lookup "home" = some homeTmpl) :
    (r.parseErr = none → (r.FormValue "name" = "" ∨ r.FormValue "phone" = "") →
      (HomeHandler app env w r).db = app.db ∧
      (HomeHandler app env w r).w.body = w.body ++ (homeTmpl.Execute {}).1 ∧
      (HomeHandler app env w r).w.status = w.status ∧
      insertAttempted (HomeHandler app env w r).events = false) ∧
    (insertAttempted (HomeHandler app env w r).events = false ∨
      (r.FormValue "name" ≠ "" ∧ r.FormValue "phone" ≠ "")) := by
  rcases HomeHandler_cases app env w r with ⟨err, hp, h⟩ | ⟨hp, hv, h⟩ | ⟨hp, hv, err, h⟩ |
    ⟨hp, hv, err, h⟩ | ⟨hp, hv, db1, -, h⟩
  · refine ⟨fun hparse => ?_, Or.inl ?_⟩
    · rw [hp] at hparse; cases hparse
    · rw [h]; rfl
  · refine ⟨fun _ _ => ?_, Or.inl ?_⟩
    · rw [h, render_db, render_w_of_lookup hhome]
      exact ⟨rfl, rfl, rfl, insertAttempted_render_home _ _ _⟩
    · rw [h]; exact insertAttempted_render_home _ _ _
  · refine ⟨fun _ hempty => ?_, Or.inr hv⟩
    rcases hempty with he | he
    · exact absurd he hv.1
    · exact absurd he hv.2
  · refine ⟨fun _ hempty => ?_, Or.inr hv⟩
    rcases hempty with he | he
    · exact absurd he hv.1
    · exact absurd he hv.2
  · refine ⟨fun _ hempty => ?_, Or.inr hv⟩
    rcases hempty with he | he
    · exact absurd he hv.1
    · exact absurd he hv.2

/-- C3: for every request with name and phone both non-empty, if the `Prepare` or the `Exec`
of the insert fails with `err`, the call prints `error: err` on standard output, leaves the
response as it was (no body written, no status set), executes no template, leaves the store
unchanged, and returns; the error is the one the store call returned. -/
theorem C3_insert_failure_is_silent (app : application) (env : HandlerEnv) (w : ResponseWriter)
    (r : Request) (err : String)
    (hname : r.FormValue "name" ≠ "") (hphone : r.FormValue "phone" ≠ "")
    (hfail : insertFailure (HomeHandler app env w r).events = some err) :
    (HomeHandler app env w r).stdout = ["error: " ++ err] ∧
    (HomeHandler app env w r).w = w ∧
    (HomeHandler app env w r).db = app.db ∧
    templateExecuted (HomeHandler app env w r).events = false ∧
    (HomeHandler app env w r).panic = none ∧
    (Prepare env.prepareErr app.db insertSQL = .error err ∨
      Exec env.execErr app.db (.insert "registration" insertCols 4) (insertArgs env r)
        = .error err) := by
  unfold HomeHandler at hfail ⊢
  cases hp : r.parseErr with
  | some e => simp [hp, insertFailure] at hfail
  | none =>
    simp only [hp, if_pos (And.intro hname hphone)] at hfail ⊢
    cases hprep : Prepare env.prepareErr app.db insertSQL with
    | error e =>
      simp only [hprep, insertFailure, Option.some.injEq] at hfail ⊢
      subst hfail
      simp [Printf_errorPattern, templateExecuted]
    | ok stmt =>
      have hs := Prepare_insertSQL_ok hprep
      subst hs
      simp only [hprep] at hfail ⊢
      cases hexec : Exec env.execErr app.db (.insert "registration" insertCols 4)
          [Arg.text env.newV4, Arg.text (r.FormValue "name"), Arg.text (r.FormValue "phone"),
            Arg.int env.now] with
      | error e =>
        simp only [hexec, insertFailure, Option.some.injEq] at hfail ⊢
        subst hfail
        simp [Printf_errorPattern, templateExecuted, insertArgs, hexec]
      | ok db1 =>
        simp only [hexec, insertFailure_render_registration] at hfail
        cases hfail

set_option maxRecDepth 100000 in
/-- C10, as stated, fails: two requests with no name and no phone, for neither of which an
insert is accepted, get different responses when the form of the first does not parse: the
handler panics on the first and writes nothing, and renders `home` for the second. -/
theorem C10_unparsed_form_gets_no_body :
    (Request.mk (some "invalid URL escape") []).FormValue "name" = "" ∧
    (Request.mk none []).FormValue "name" = "" ∧
    insertAccepted (HomeHandler demoApp (quietEnv "id-1" 1700000000) newWriter
      (Request.mk (some "invalid URL escape") [])).events = false ∧
    insertAccepted (HomeHandler demoApp (quietEnv "id-1" 1700000000) newWriter
      (Request.mk none [])).events = false ∧
    (HomeHandler demoApp (quietEnv "id-1" 1700000000) newWriter
      (Request.mk (some "invalid URL escape") [])).panic = some "invalid URL escape" ∧
    (HomeHandler demoApp (quietEnv "id-1" 1700000000) newWriter
      (Request.mk (some "invalid URL escape") [])).w.body = "" ∧
    (HomeHandler demoApp (quietEnv "id-1" 1700000000) newWriter
      (Request.mk none [])).w.body = "<form>" := by
  decide

/-- C10, amended: the response does not depend on the submitted values. Two calls on the same
application and the same response writer, with any two requests, stores and environments,
give the same response body whenever they agree on whether the form parses, on whether both
name and phone are non-empty, and on whether the store accepts the insert: both templates are
executed on the empty `homeData`. -/
theorem C10_response_independent_of_values (app : application) (db1 db2 : Database)
    (env1 env2 : HandlerEnv) (w : ResponseWriter) (r1 r2 : Request)
    (hparse : r1.parseErr.isSome = r2.parseErr.isSome)
    (hvalid : (r1.FormValue "name" ≠ "" ∧ r1.FormValue "phone" ≠ "") ↔
      (r2.FormValue "name" ≠ "" ∧ r2.FormValue "phone" ≠ ""))
    (hins : insertAccepted (HomeHandler { app with db := db1 } env1 w r1).events =
      insertAccepted (HomeHandler { app with db := db2 } env2 w r2).events) :
    (HomeHandler { app with db := db1 } env1 w r1).w.body =
      (HomeHandler { app with db := db2 } env2 w r2).w.body := by
  rw [HomeHandler_w, HomeHandler_w, hparse, hins]
  have h1 : (render { app with db := db1 } "home" db1 w []).w =
      (render { app with db := db2 } "home" db2 w []).w := by
    unfold render; simp only; split
    · rfl
    · split <;> rfl
  have h2 : (render { app with db := db1 } "registration" db1 w []).w =
      (render { app with db := db2 } "registration" db2 w []).w := by
    unfold render; simp only; split
    · rfl
    · split <;> rfl
  simp only [h1, h2]
  by_cases hv : r2.FormValue "name" ≠ "" ∧ r2.FormValue "phone" ≠ ""
  · rw [if_neg (not_not.mpr (hvalid.mpr hv)), if_neg (not_not.mpr hv)]
  · rw [if_pos (fun h => hv (hvalid.mp h)), if_pos hv]


/-! ## Witnesses of the `HomeHandler` claims -/

set_option maxRecDepth 100000 in
/-- Witness of C2: an empty name with a phone. -/
theorem C2_no_insert_on_missing_field_witness :
    (formRequest "" "555-1234").parseErr = none ∧
    ((formRequest "" "555-1234").FormValue "name" = "" ∨
      (formRequest "" "555-1234").FormValue "phone" = "") ∧
    (HomeHandler demoApp (quietEnv "id-1" 1700000000) newWriter
        (formRequest "" "555-1234")).db = demoApp.db ∧
    (HomeHandler demoApp (quietEnv "id-1" 1700000000) newWriter
        (formRequest "" "555-1234")).w.body =
      newWriter.body ++ ((staticTemplate "home" "<form>").Execute {}).1 ∧
    (HomeHandler demoApp (quietEnv "id-1" 1700000000) newWriter
        (formRequest "" "555-1234")).w.status = newWriter.status ∧
    insertAttempted (HomeHandler demoApp (quietEnv "id-1" 1700000000) newWriter
        (formRequest "" "555-1234")).events = false :=
  ⟨rfl, Or.inl (by decide),
    (C2_no_insert_on_missing_field demoApp (staticTemplate "home" "<form>")
      (quietEnv "id-1" 1700000000) newWriter (formRequest "" "555-1234") rfl).1 rfl
      (Or.inl (by decide))⟩

set_option maxRecDepth 100000 in
/-- Witness of C3: the driver refuses the `Prepare` because the database is locked. -/
theorem C3_insert_failure_is_silent_witness :
    (formRequest "Alice" "555-1234").FormValue "name" ≠ "" ∧
    (formRequest "Alice" "555-1234").FormValue "phone" ≠ "" ∧
    insertFailure (HomeHandler demoApp ⟨some "database is locked", none, "id-1", 1700000000⟩
      newWriter (formRequest "Alice" "555-1234")).events = some "database is locked" ∧
    (HomeHandler demoApp ⟨some "database is locked", none, "id-1", 1700000000⟩
      newWriter (formRequest "Alice" "555-1234")).stdout = ["error: " ++ "database is locked"] ∧
    (HomeHandler demoApp ⟨some "database is locked", none, "id-1", 1700000000⟩
      newWriter (formRequest "Alice" "555-1234")).w = newWriter ∧
    (HomeHandler demoApp ⟨some "database is locked", none, "id-1", 1700000000⟩
      newWriter (formRequest "Alice" "555-1234")).db = demoApp.db :=
  ⟨by decide, by decide, by decide,
    (C3_insert_failure_is_silent demoApp ⟨some "database is locked", none, "id-1", 1700000000⟩
      newWriter (formRequest "Alice" "555-1234") "database is locked"
      (by decide) (by decide) (by decide)).1,
    (C3_insert_failure_is_silent demoApp ⟨some "database is locked", none, "id-1", 1700000000⟩
      newWriter (formRequest "Alice" "555-1234") "database is locked"
      (by decide) (by decide) (by decide)).2.1,
    (C3_insert_failure_is_silent demoApp ⟨some "database is locked", none, "id-1", 1700000000⟩
      newWriter (formRequest "Alice" "555-1234") "database is locked"
      (by decide) (by decide) (by decide)).2.2.1⟩

set_option maxRecDepth 100000 in
/-- Witness of C10 amended: two accepted submissions with different names and phones. -/
theorem C10_response_independent_of_values_witness :
    (formRequest "Alice" "0123").parseErr.isSome = (formRequest "Bob" "555-1234").parseErr.isSome ∧
    insertAccepted (HomeHandler { demoApp with db := demoApp.db } (quietEnv "id-1" 1700000000)
        newWriter (formRequest "Alice" "0123")).events =
      insertAccepted (HomeHandler { demoApp with db := demoApp.db } (quietEnv "id-2" 1700000001)
        newWriter (formRequest "Bob" "555-1234")).events ∧
    (HomeHandler { demoApp with db := demoApp.db } (quietEnv "id-1" 1700000000) newWriter
        (formRequest "Alice" "0123")).w.body =
      (HomeHandler { demoApp with db := demoApp.db } (quietEnv "id-2" 1700000001) newWriter
        (formRequest "Bob" "555-1234")).w.body :=
  ⟨rfl, by decide,
    C10_response_independent_of_values demoApp demoApp.db demoApp.db (quietEnv "id-1" 1700000000)
      (quietEnv "id-2" 1700000001) newWriter (formRequest "Alice" "0123")
      (formRequest "Bob" "555-1234") rfl (by decide) (by decide)⟩


/-! ## Claims about the schema and the stored values -/

set_option maxRecDepth 100000 in
/-- C6: on an empty database file `initDatabase` creates one table `registration`, WITHOUT
ROWID, whose columns are declared `id text primary key`, `name string not null`,
`phone string not null`, `created_on integer not null`: the declared type of `name` and of
`phone` is `string`, not `text`, and their affinity is NUMERIC while that of `id` is TEXT. -/
theorem C6_name_and_phone_declared_string :
    (initDatabase noFaults emptyFile).db.tables =
      [⟨"registration",
        [⟨"id", "text", true, false⟩, ⟨"name", "string", false, true⟩,
         ⟨"phone", "string", false, true⟩, ⟨"created_on", "integer", false, true⟩],
        true, []⟩] ∧
    (initDatabase noFaults emptyFile).db.tables.map
        (fun t => t.cols.map fun c => (decide (c.declType = "text"), affinityOf c.declType)) =
      [[(true, Affinity.text), (false, Affinity.numeric), (false, Affinity.numeric),
        (false, Affinity.integer)]] := by
  decide

set_option maxRecDepth 100000 in
/-- C1: the submission name `Alice`, phone `0123` is accepted by the store and adds one row,
but the row holds the phone as the INTEGER 123 and not as the text `0123` that was submitted;
the response body is the rendered `registration` template. -/
theorem C1_numeric_phone_not_stored_as_submitted :
    insertAccepted
      (HomeHandler demoApp (quietEnv "6ba7b810-9dad-41d1-80b4-00c04fd430c8" 1700000000)
        newWriter (formRequest "Alice" "0123")).events = true ∧
    (HomeHandler demoApp (quietEnv "6ba7b810-9dad-41d1-80b4-00c04fd430c8" 1700000000)
        newWriter (formRequest "Alice" "0123")).db.registrations =
      [[.text "6ba7b810-9dad-41d1-80b4-00c04fd430c8", .text "Alice", .integer 123,
        .integer 1700000000]] ∧
    (HomeHandler demoApp (quietEnv "6ba7b810-9dad-41d1-80b4-00c04fd430c8" 1700000000)
        newWriter (formRequest "Alice" "0123")).db.registrations ≠
      [[.text "6ba7b810-9dad-41d1-80b4-00c04fd430c8", .text "Alice", .text "0123",
        .integer 1700000000]] ∧
    (HomeHandler demoApp (quietEnv "6ba7b810-9dad-41d1-80b4-00c04fd430c8" 1700000000)
        newWriter (formRequest "Alice" "0123")).w.body = "<p>registered</p>" := by
  decide

/-! ## Claims about `start` and `main` -/

/-- C8: once SIGINT has arrived, whatever `srv.Shutdown(ctx)` returns and however the two
goroutines are scheduled, `start` has called the shutdown with the timeout `app.wait`, logged
`shutting down`, and exited with status 0. -/
theorem C8_exit_zero_after_interrupt (app : application) (env : StartEnv)
    (h : env.interrupt = true) :
    (start app env).exit = some 0 ∧
    "shutting down" ∈ (start app env).log ∧
    (start app env).shutdown = some app.wait := by
  unfold start
  rw [if_pos h]
  refine ⟨rfl, ?_, rfl⟩
  cases env.race <;> simp

/-- Witness of C8: a shutdown that timed out. -/
theorem C8_exit_zero_after_interrupt_witness :
    (⟨none, true, some "context deadline exceeded", .second⟩ : StartEnv).interrupt = true ∧
    (start demoApp ⟨none, true, some "context deadline exceeded", .second⟩).exit = some 0 ∧
    "shutting down" ∈ (start demoApp ⟨none, true, some "context deadline exceeded", .second⟩).log ∧
    (start demoApp ⟨none, true, some "context deadline exceeded", .second⟩).shutdown
      = some demoApp.wait :=
  ⟨rfl, C8_exit_zero_after_interrupt demoApp ⟨none, true, some "context deadline exceeded", .second⟩
    rfl⟩

set_option maxRecDepth 100000 in
/-- C9, as stated, fails: in the startup where every step succeeds, both `createTemplate`
calls come first and `initDatabase` is the fifth call, so it does not run before the
template loads. -/
theorem C9_templates_load_before_initDatabase :
    (main demoMainEnv).trace =
      [.createTemplate "home" "templates/index.html",
       .createTemplate "registration" "templates/registration.html",
       .flagParse, .newRouter, .initDatabase,
       .handleFunc "/", .pathPrefixHandler "/" "./static/", .start] ∧
    ¬ ((main demoMainEnv).trace.indexOf Step.initDatabase <
        (main demoMainEnv).trace.indexOf (Step.createTemplate "home" "templates/index.html")) ∧
    ¬ ((main demoMainEnv).trace.indexOf Step.initDatabase <
        (main demoMainEnv).trace.indexOf
          (Step.createTemplate "registration" "templates/registration.html")) := by
  decide

/-- C9, amended: every startup trace of `main` is a prefix of the sequence
`createTemplate(home)`, `createTemplate(registration)`, `flag.Parse`, `NewRouter`,
`initDatabase`, `HandleFunc`, `PathPrefix`, `start`: both template loads precede
`initDatabase`, which precedes route wiring and the start of the server lifecycle. -/
theorem C9_startup_order (env : MainEnv) :
    (main env).trace <+:
      [.createTemplate "home" "templates/index.html",
       .createTemplate "registration" "templates/registration.html",
       .flagParse, .newRouter, .initDatabase,
       .handleFunc "/", .pathPrefixHandler "/" "./static/", .start] := by
  unfold main
  simp only
  split
  · exact ⟨_, rfl⟩
  · split
    · exact ⟨_, rfl⟩
    · split
      · exact ⟨_, rfl⟩
      · split
        · exact ⟨_, rfl⟩
        · exact ⟨[], rfl⟩


/-! ## Claims about `initDatabase` -/

theorem countP_registration_le_one {tables : List Table}
    (h : (tables.map fun t => lowerName t.name).Nodup) :
    tables.countP (fun t => sameName t.name "registration") ≤ 1 := by
  induction tables with
  | nil => simp
  | cons t rest ih =>
    rw [List.map_cons, List.nodup_cons] at h
    have hrest := ih h.2
    by_cases hs : sameName t.name "registration" = true
    · have hzero : rest.countP (fun t => sameName t.name "registration") = 0 := by
        rw [List.countP_eq_zero]
        intro t1 ht1 hs1
        apply h.1
        have e1 : lowerName t.name = lowerName "registration" := by simpa [sameName] using hs
        have e2 : lowerName t1.name = lowerName "registration" := by simpa [sameName] using hs1
        rw [e1, ← e2]
        exact List.mem_map_of_mem _ ht1
      rw [List.countP_cons, hzero]
      simp [hs]
    · rw [List.countP_cons]
      simpa [hs] using hrest

set_option maxRecDepth 100000 in
/-- C7, as stated, fails: on a database whose table `t` has an index named `registration`
the table creation is refused and `initDatabase` panics; when the driver reports the
database locked at the second script `initDatabase` panics; and on a database with a view
named `registration` it creates no table `registration`. -/
theorem C7_initDatabase_can_panic :
    (initDatabase noFaults
      ⟨false, [⟨"t", [⟨"x", "text", false, false⟩], false, []⟩], [], ["registration"]⟩).panic =
      some "there is already an index named registration" ∧
    (initDatabase ⟨none, fun _ => none, fun i => if i = 1 then some "database is locked" else none⟩
      emptyFile).panic = some "database is locked" ∧
    (initDatabase noFaults
        ⟨false, [⟨"t", [⟨"x", "text", false, false⟩], false, []⟩], ["registration"], []⟩).panic =
      none ∧
    List.countP (fun t => sameName t.name "registration")
      (initDatabase noFaults
        ⟨false, [⟨"t", [⟨"x", "text", false, false⟩], false, []⟩], ["registration"],
          []⟩).db.tables = 0 := by
  decide

/-- C7, amended: for every database state in which table names are unique and no view and
no index is named `registration`, and with a driver that reports no failure of its own:
`initDatabase` does not panic, run again on its result it does not panic and leaves the same
database, which holds exactly one `registration` table; a `registration` table that was
already there is kept as it was, rows included, and otherwise the new table is the declared
one with no rows; the scripts are executed in the order foreign-key pragma, then table
creation. -/
theorem C7_initDatabase_idempotent (file : Database)
    (hwf : (file.tables.map fun t => lowerName t.name).Nodup)
    (hview : file.hasView "registration" = false)
    (hindex : file.hasIndex "registration" = false) :
    (initDatabase noFaults file).panic = none ∧
    (initDatabase noFaults (initDatabase noFaults file).db).panic = none ∧
    (initDatabase noFaults (initDatabase noFaults file).db).db =
      (initDatabase noFaults file).db ∧
    List.countP (fun t => sameName t.name "registration") (initDatabase noFaults file).db.tables
      = 1 ∧
    (initDatabase noFaults file).db.find "registration" =
      (match file.find "registration" with
        | some t => some t
        | none => some (registrationTable [])) ∧
    (initDatabase noFaults file).executed.map parseSQL =
      [some (.pragmaForeignKeys true),
       some (.createTableIfNotExists "registration" registrationCols true)] := by
  have hle := countP_registration_le_one hwf
  cases hfind : file.find "registration" with
  | none =>
    have hnone : List.find? (fun t => sameName t.name "registration") file.tables = none := hfind
    have hzero : file.tables.countP (fun t => sameName t.name "registration") = 0 := by
      rw [List.countP_eq_zero]
      intro t ht
      have := List.find?_eq_none.mp hnone t ht
      simpa using this
    have hdb : initDatabase noFaults file =
        ⟨{ file with
            foreignKeys := true
            tables := file.tables ++ [registrationTable []] }, scripts, none⟩ := by
      rw [initDatabase_noFaults]
      simp [hfind, hview, hindex]
    have hfind1 : Database.find { file with
          foreignKeys := true
          tables := file.tables ++ [registrationTable []] } "registration" =
        some (registrationTable []) := by
      have hs : sameName (registrationTable []).name "registration" = true := by decide
      simp [Database.find, List.find?_append, hnone, hs]
    have hdb2 : initDatabase noFaults { file with
          foreignKeys := true
          tables := file.tables ++ [registrationTable []] } =
        ⟨{ file with
            foreignKeys := true
            tables := file.tables ++ [registrationTable []] }, scripts, none⟩ := by
      rw [initDatabase_noFaults]
      simp [hfind1]
    rw [hdb]
    simp only [hdb2, hfind1, true_and]
    refine ⟨?_, ?_⟩
    · have hs : sameName (registrationTable []).name "registration" = true := by decide
      rw [List.countP_append, hzero]
      simp [hs]
    · simp [scripts, parseSQL_pragmaScript, parseSQL_createScript]
  | some t =>
    have hsome : List.find? (fun t => sameName t.name "registration") file.tables = some t :=
      hfind
    have hdb : initDatabase noFaults file = ⟨{ file with foreignKeys := true }, scripts, none⟩ := by
      rw [initDatabase_noFaults]
      simp [hfind]
    have hfind1 : Database.find { file with foreignKeys := true } "registration" = some t :=
      hfind
    have hdb2 : initDatabase noFaults { file with foreignKeys := true } =
        ⟨{ file with foreignKeys := true }, scripts, none⟩ := by
      rw [initDatabase_noFaults]
      simp [hfind1]
    rw [hdb]
    simp only [hdb2, hfind1, true_and]
    refine ⟨?_, ?_⟩
    · have hpos : 0 < file.tables.countP (fun t => sameName t.name "registration") := by
        rw [List.countP_pos_iff]
        exact ⟨t, List.mem_of_find?_eq_some hsome, by simpa using List.find?_some hsome⟩
      show file.tables.countP (fun t => sameName t.name "registration") = 1
      omega
    · simp [scripts, parseSQL_pragmaScript, parseSQL_createScript]

set_option maxRecDepth 100000 in
/-- Witness of C7 amended: a database that already holds a table `Registration` with one
row, and another table. -/
theorem C7_initDatabase_idempotent_witness :
    ((⟨false, [⟨"other", [], false, []⟩,
        ⟨"Registration", registrationCols, true,
          [[.text "a", .text "Bob", .integer 5551234, .integer 1]]⟩], [], []⟩ :
        Database).tables.map fun t => lowerName t.name).Nodup ∧
    List.countP (fun t => sameName t.name "registration")
      (initDatabase noFaults ⟨false, [⟨"other", [], false, []⟩,
        ⟨"Registration", registrationCols, true,
          [[.text "a", .text "Bob", .integer 5551234, .integer 1]]⟩], [], []⟩).db.tables = 1 :=
  ⟨by decide,
    (C7_initDatabase_idempotent ⟨false, [⟨"other", [], false, []⟩,
        ⟨"Registration", registrationCols, true,
          [[.text "a", .text "Bob", .integer 5551234, .integer 1]]⟩], [], []⟩
      (by decide) (by decide) (by decide)).2.2.2.1⟩

/-! ## The rows of the `registration` table -/

theorem find_setRows_tables {tables : List Table} {n : String} {t : Table}
    (rows : List (List SqlValue))
    (h : tables.find? (fun t => sameName t.name n) = some t) :
    (tables.map fun t => if sameName t.name n then { t with rows := rows } else t).find?
        (fun t => sameName t.name n) = some { t with rows := rows } := by
  induction tables with
  | nil => simp at h
  | cons t0 rest ih =>
    simp only [List.map_cons, List.find?_cons] at h ih ⊢
    cases hn : sameName t0.name n with
    | true =>
      simp only [hn, ↓reduceIte] at h ⊢
      cases h
      rfl
    | false =>
      simp only [hn, Bool.false_eq_true, ↓reduceIte] at h ⊢
      exact ih h

theorem find_setRows_db {db : Database} {n : String} {t : Table} (rows : List (List SqlValue))
    (h : db.find n = some t) : (db.setRows n rows).find n = some { t with rows := rows } :=
  find_setRows_tables rows h

theorem find_name {db : Database} {n : String} {t : Table} (h : db.find n = some t) :
    t ∈ db.tables ∧ sameName t.name n = true := by
  unfold Database.find at h
  exact ⟨List.mem_of_find?_eq_some h, by simpa using List.find?_some h⟩

theorem numericOfText_not_empty {s : String} (h : s ≠ "") : (numericOfText s).isEmpty = false := by
  unfold numericOfText
  split
  · split <;> simp [SqlValue.isEmpty]
  · split
    · simp [SqlValue.isEmpty]
    · simp [SqlValue.isEmpty, h]

theorem persistedNonEmpty_of_Inv {db : Database} (h : Inv db) : persistedNonEmpty db = true := by
  unfold persistedNonEmpty
  rw [List.all_eq_true]
  intro t ht
  cases hn : sameName t.name "registration" with
  | false => rfl
  | true =>
    obtain ⟨hcols, hrows⟩ := h t ht hn
    simp only [Bool.not_true, Bool.false_or, List.all_eq_true]
    intro row hrow
    obtain ⟨a, b, c, d, rfl, hb, hc⟩ := hrows row hrow
    have h1 : t.field [a, b, c, d] "name" = b := by
      unfold Table.field; rw [hcols]; rfl
    have h2 : t.field [a, b, c, d] "phone" = c := by
      unfold Table.field; rw [hcols]; rfl
    rw [h1, h2, hb, hc]
    rfl

theorem Inv_of_no_table {db : Database} (h : db.find "registration" = none) : Inv db := by
  intro t ht hn
  have hnone : List.find? (fun t => sameName t.name "registration") db.tables = none := h
  have := List.find?_eq_none.mp hnone t ht
  simp [hn] at this

theorem Inv_initDatabase {file : Database} (h : file.find "registration" = none) :
    Inv (initDatabase noFaults file).db := by
  have hfile : Inv { file with foreignKeys := true } := Inv_of_no_table h
  rw [initDatabase_noFaults, h]
  split
  · exact hfile
  · split
    · exact hfile
    · intro t ht hn
      simp only [List.mem_append, List.mem_singleton] at ht
      rcases ht with ht | rfl
      · exact hfile t ht hn
      · exact ⟨rfl, by simp [registrationTable]⟩

theorem Inv_HomeHandler (app : application) (env : HandlerEnv) (w : ResponseWriter)
    (r : Request) (h : Inv app.db) : Inv (HomeHandler app env w r).db := by
  rcases HomeHandler_db app env w r with ⟨-, hdb⟩ | ⟨-, -, hname, hphone, hexec⟩
  · rw [hdb]; exact h
  · obtain ⟨t, hfind, -, hdb⟩ := Exec_insert_ok hexec
    rw [hdb]
    obtain ⟨htmem, htname⟩ := find_name hfind
    obtain ⟨htcols, htrows⟩ := h t htmem htname
    intro t1 ht1 hn1
    simp only [Database.setRows, List.mem_map] at ht1
    obtain ⟨t0, ht0, rfl⟩ := ht1
    cases hn0 : sameName t0.name "registration" with
    | true =>
      simp only [hn0, ↓reduceIte]
      refine ⟨(h t0 ht0 hn0).1, ?_⟩
      intro row hrow
      simp only [List.mem_append, List.mem_singleton] at hrow
      rcases hrow with hrow | rfl
      · exact htrows row hrow
      · rw [htcols]
        unfold insertArgs
        rw [buildRow_registration]
        exact ⟨_, _, _, _, rfl, numericOfText_not_empty hname, numericOfText_not_empty hphone⟩
    | false =>
      simp only [hn0, Bool.false_eq_true, ↓reduceIte] at hn1

theorem Inv_of_Reachable {db : Database} (h : Reachable db) : Inv db := by
  induction h with
  | init file hfile => exact Inv_initDatabase hfile
  | step app env w r _ ih => exact Inv_HomeHandler app env w r ih

/-! ## Claims about the persisted rows -/

/-- C4: in every store state reachable from the empty `registration` table by any finite
sequence of `HomeHandler` calls, with arbitrary requests, ids, clock readings and store
outcomes, every row of `registration` has a non-empty name and a non-empty phone (neither
NULL nor the empty text). -/
theorem C4_persisted_name_and_phone_non_empty (db : Database) (h : Reachable db) :
    persistedNonEmpty db = true :=
  persistedNonEmpty_of_Inv (Inv_of_Reachable h)

set_option maxRecDepth 100000 in
/-- Witness of C4: the store after one accepted submission and one refused for its empty
phone. -/
theorem C4_persisted_name_and_phone_non_empty_witness :
    Reachable
      (HomeHandler
        { demoApp with
          db := (HomeHandler demoApp (quietEnv "id-1" 1700000000) newWriter
            (formRequest "Alice" "555-1234")).db }
        (quietEnv "id-2" 1700000001) newWriter (formRequest "Bob" "")).db ∧
    persistedNonEmpty
      (HomeHandler
        { demoApp with
          db := (HomeHandler demoApp (quietEnv "id-1" 1700000000) newWriter
            (formRequest "Alice" "555-1234")).db }
        (quietEnv "id-2" 1700000001) newWriter (formRequest "Bob" "")).db = true ∧
    (HomeHandler
        { demoApp with
          db := (HomeHandler demoApp (quietEnv "id-1" 1700000000) newWriter
            (formRequest "Alice" "555-1234")).db }
        (quietEnv "id-2" 1700000001) newWriter (formRequest "Bob" "")).db.registrations =
      [[.text "id-1", .text "Alice", .text "555-1234", .integer 1700000000]] :=
  ⟨Reachable.step _ _ _ _ (Reachable.step demoApp _ _ _ (Reachable.init emptyFile rfl)),
   C4_persisted_name_and_phone_non_empty _
     (Reachable.step _ _ _ _ (Reachable.step demoApp _ _ _ (Reachable.init emptyFile rfl))),
   by decide⟩


theorem registrations_setRows {db : Database} {t : Table} (rows : List (List SqlValue))
    (h : db.find "registration" = some t) :
    (db.setRows "registration" rows).registrations = rows := by
  unfold Database.registrations
  rw [find_setRows_db rows h]

/-- What an accepted insert does to a store whose `registration` table has the declared
columns: it appends the row `[id, name, phone, created_on]`, name and phone under NUMERIC
affinity, and the id was not yet the id of a row. -/
theorem accepted_insert {app : application} {env : HandlerEnv} {w : ResponseWriter}
    {r : Request} {t : Table}
    (hfind : app.db.find "registration" = some t) (hcols : t.cols = registrationCols)
    (hacc : insertAccepted (HomeHandler app env w r).events = true) :
    (HomeHandler app env w r).db =
      app.db.setRows "registration"
        (t.rows ++ [[.text env.newV4, numericOfText (r.FormValue "name"),
          numericOfText (r.FormValue "phone"), .integer env.now]]) ∧
    (∀ row ∈ t.rows, row.head? ≠ some (.text env.newV4)) ∧
    r.FormValue "name" ≠ "" ∧ r.FormValue "phone" ≠ "" := by
  rcases HomeHandler_db app env w r with ⟨hno, -⟩ | ⟨-, -, hname, hphone, hexec⟩
  · rw [hno] at hacc; cases hacc
  · obtain ⟨t1, hfind1, hpk, hdb⟩ := Exec_insert_ok hexec
    rw [hfind] at hfind1
    cases hfind1
    unfold insertArgs at hpk hdb
    rw [hcols, buildRow_registration] at hpk hdb
    refine ⟨hdb, ?_, hname, hphone⟩
    intro row hrow hhead
    unfold pkTaken at hpk
    rw [hcols] at hpk
    have hany : (t.rows.any fun r0 =>
        decide (pkOf registrationCols r0 =
          pkOf registrationCols [.text env.newV4, numericOfText (r.FormValue "name"),
            numericOfText (r.FormValue "phone"), .integer env.now])) = false := by
      simpa [registrationCols] using hpk
    rw [List.any_eq_false] at hany
    have hrow1 := hany row hrow
    apply hrow1
    cases row with
    | nil => simp at hhead
    | cons a rest =>
      simp only [List.head?_cons, Option.some.injEq] at hhead
      subst hhead
      cases rest with
      | nil => simp [pkOf, registrationCols]
      | cons b rest =>
        cases rest with
        | nil => simp [pkOf, registrationCols]
        | cons c rest =>
          cases rest with
          | nil => simp [pkOf, registrationCols]
          | cons d rest => cases rest <;> simp [pkOf, registrationCols]

/-! ## Claims about two submissions -/

set_option maxRecDepth 100000 in
/-- C5, as stated, fails: two sequential submissions of name `Alice`, phone `555-1234`, the
second of which the store refuses (`database is locked`), add one row and not two. -/
theorem C5_second_insert_refused :
    (HomeHandler
        { demoApp with
          db := (HomeHandler demoApp (quietEnv "id-1" 1700000000) newWriter
            (formRequest "Alice" "555-1234")).db }
        ⟨none, some "database is locked", "id-2", 1700000001⟩ newWriter
        (formRequest "Alice" "555-1234")).db.registrations =
      [[.text "id-1", .text "Alice", .text "555-1234", .integer 1700000000]] ∧
    demoApp.db.registrations = [] := by
  decide

/-- C5, amended: for every store state whose `registration` table has the declared columns
and for two sequential calls with the same name and phone, if the store accepts both inserts
then the table gains exactly two rows, one per call, and the two ids differ (an insert that
repeats the id of a row is not accepted); name and phone are then non-empty. -/
theorem C5_accepted_inserts_have_distinct_ids (app1 app2 : application)
    (env1 env2 : HandlerEnv) (w1 w2 : ResponseWriter) (r1 r2 : Request) (t : Table)
    (name phone : String)
    (hfind : app1.db.find "registration" = some t) (hcols : t.cols = registrationCols)
    (hn1 : r1.FormValue "name" = name) (hp1 : r1.FormValue "phone" = phone)
    (hn2 : r2.FormValue "name" = name) (hp2 : r2.FormValue "phone" = phone)
    (hseq : app2.db = (HomeHandler app1 env1 w1 r1).db)
    (hacc1 : insertAccepted (HomeHandler app1 env1 w1 r1).events = true)
    (hacc2 : insertAccepted (HomeHandler app2 env2 w2 r2).events = true) :
    (HomeHandler app2 env2 w2 r2).db.registrations =
      t.rows ++
        [[.text env1.newV4, numericOfText name, numericOfText phone, .integer env1.now],
         [.text env2.newV4, numericOfText name, numericOfText phone, .integer env2.now]] ∧
    env1.newV4 ≠ env2.newV4 ∧ name ≠ "" ∧ phone ≠ "" := by
  subst hn1 hp1
  obtain ⟨hdb1, -, hname, hphone⟩ := accepted_insert hfind hcols hacc1
  have hfind2 : app2.db.find "registration" =
      some { t with rows := t.rows ++
        [[.text env1.newV4, numericOfText (r1.FormValue "name"),
          numericOfText (r1.FormValue "phone"), .integer env1.now]] } := by
    rw [hseq, hdb1]
    exact find_setRows_db _ hfind
  obtain ⟨hdb2, hfresh, -, -⟩ := accepted_insert hfind2 hcols hacc2
  rw [hn2, hp2] at hdb2
  refine ⟨?_, ?_, hname, hphone⟩
  · rw [hdb2, registrations_setRows _ hfind2]
    simp
  · intro heq
    apply hfresh [.text env1.newV4, numericOfText (r1.FormValue "name"),
      numericOfText (r1.FormValue "phone"), .integer env1.now]
    · simp
    · simp [heq]

set_option maxRecDepth 100000 in
/-- Witness of C5 amended: two accepted submissions of `Alice`, `555-1234`. -/
theorem C5_accepted_inserts_have_distinct_ids_witness :
    (HomeHandler
        { demoApp with
          db := (HomeHandler demoApp (quietEnv "id-1" 1700000000) newWriter
            (formRequest "Alice" "555-1234")).db }
        (quietEnv "id-2" 1700000001) newWriter
        (formRequest "Alice" "555-1234")).db.registrations =
      [] ++
        [[.text "id-1", numericOfText "Alice", numericOfText "555-1234", .integer 1700000000],
         [.text "id-2", numericOfText "Alice", numericOfText "555-1234", .integer 1700000001]] ∧
    "id-1" ≠ "id-2" ∧ "Alice" ≠ "" ∧ "555-1234" ≠ "" :=
  C5_accepted_inserts_have_distinct_ids demoApp
    { demoApp with
      db := (HomeHandler demoApp (quietEnv "id-1" 1700000000) newWriter
        (formRequest "Alice" "555-1234")).db }
    (quietEnv "id-1" 1700000000) (quietEnv "id-2" 1700000001) newWriter newWriter
    (formRequest "Alice" "555-1234") (formRequest "Alice" "555-1234")
    (registrationTable []) "Alice" "555-1234"
    (by decide) rfl (by decide) (by decide) (by decide) (by decide) rfl (by decide) (by decide)

end TriangleQRPromo
